import Mathlib

/-!
Verification of the `prober` package (black-box monitoring engine) against
its natural-language specification.

The Go source (`prober.go`) is shallowly embedded below:
* `time.Time` instants and `time.Duration` values are modelled as integer
  nanosecond counts (`Instant`, `Duration`), matching Go's `int64`
  nanosecond representation on the UTC timeline;
* the mutable `Probe` struct becomes an immutable `Probe` structure and the
  mutating methods (`addRecord`, `handleResult`, `sendAlert`, `runProbe`)
  become state-passing functions returning the updated `Probe`;
* side channels that do not influence probe state (glog output, the YAML log
  file) are dropped; the spawning of the alert goroutine and the delivery
  outcome are surfaced as explicit booleans;
* the select race in `runProbe` is parametrised by the duration after which
  the underlying check's result becomes available.
-/

namespace Prober

/-- Nanoseconds, as in Go's `time.Duration` (an `int64` nanosecond count). -/
abbrev Duration := Int

/-- A point in time, as nanoseconds since the epoch (Go `time.Time`, UTC). -/
abbrev Instant := Int

def second : Duration := 1000000000

def minute : Duration := 60 * second

def hour : Duration := 60 * minute

/-- Package variable `MaxAlertFrequency = time.Minute * 15`: never send
alerts more often than this. -/
def MaxAlertFrequency : Duration := 15 * minute

/-- Package variable `bufferSize = 200`: maximum number of results per
prober to keep. -/
def bufferSize : Nat := 200

/-- Package variable `defaultMinBadness = 0`: default minimum allowed
badness. -/
def defaultMinBadness : Int := 0

/-- Package variable `defaultBadnessInc = 10`: default increment on a
failed probe. -/
def defaultBadnessInc : Int := 10

/-- Package variable `defaultBadnessDec = 1`: default decrement on a
successful probe. -/
def defaultBadnessDec : Int := 1

/-- Default of the `probe_interval` flag: 61 seconds. -/
def defaultInterval : Duration := 61 * second

/-- Go type `ResultCode` describes pass/fail outcomes for probes (an int). -/
abbrev ResultCode := Int

/-- Constant `Pass` (`iota` start, 0). -/
def Pass : ResultCode := 0

/-- Constant `Fail` (1). -/
def Fail : ResultCode := 1

/-- Outcome of a single probe: Go struct `Result`. `Error` is the Go
`error` value, modelled by its message. -/
structure Result where
  Code : ResultCode := Pass
  Error : Option String := none
  Info : String := ""
  InfoUrl : String := ""
deriving DecidableEq, Repr

/-- Method `Result.Passed`: whether the probe result indicates a pass. -/
def Result.Passed (r : Result) : Bool := r.Code == Pass

/-- Constructor `FailedWith`: a Result representing failure with given error
(`Info` is the `%q`-formatted message; Go string-escaping inside the quotes
is not modelled). -/
def FailedWith (err : String) : Result :=
  { Code := Fail, Error := some err,
    Info := "The probe failed with \"" ++ err ++ "\"" }

/-- Constructor `Passed()`: a Result representing pass. -/
def PassedResult : Result := { Code := Pass }

/-- Result of a single probe run: Go struct `Record`. -/
structure Record where
  Timestamp : Instant
  TimeMillis : String
  Result : Result
deriving DecidableEq, Repr

/-- Grouping of probe records: Go type `Records`. -/
abbrev Records := List Record

/-- Stateful representation of repeated probe runs: Go struct `Probe`. The
`reportFn` function value is modelled by an opaque identity tag (the engine
only ever invokes it for its side effect, and `Equal` ignores it). Field
defaults are Go's zero values, as in the test fixtures. -/
structure Probe where
  Name : String := ""
  Desc : String := ""
  Badness : Int := 0
  Interval : Duration := 0
  Timeout : Duration := 0
  Alerting : Bool := false
  LastAlert : Instant := 0
  Disabled : Bool := false
  Records : Records := []
  minBadness : Int := 0
  badnessInc : Int := 0
  badnessDec : Int := 0
  reportFn : Option Nat := none
deriving DecidableEq, Repr

/-- Constructor `NewProbe`: a new probe from a prober implementation, before
options are applied (flag-derived fields at their defaults). -/
def NewProbe (name desc : String) : Probe :=
  { Name := name, Desc := desc, Badness := defaultMinBadness,
    Interval := defaultInterval, Timeout := defaultInterval, Records := [],
    minBadness := defaultMinBadness, badnessInc := defaultBadnessInc,
    badnessDec := defaultBadnessDec }

/-- Method `addRecord` (here on the buffer itself; the `Probe` wrapper only
stores the new buffer): appends the record, keeping the buffer within
`bufferSize` by re-slicing off the front overflow. -/
def addRecord (rs : Records) (r : Record) : Records :=
  let rs' := rs ++ [r]
  if bufferSize ≤ rs'.length then rs'.drop (rs'.length - bufferSize) else rs'

/-- Method `Record.Equal`: true if the Record objects are equal
(`Timestamp.Equal`, then `TimeMillis`, then `Result` compared field-wise). -/
def Record.Equal (r1 r2 : Record) : Bool :=
  if r1.Timestamp ≠ r2.Timestamp then false
  else if r1.TimeMillis ≠ r2.TimeMillis then false
  else if r1.Result ≠ r2.Result then false
  else true

/-- Method `Records.Equal`: true if the Records are equal, i.e. equal length
and pointwise `Record.Equal`. -/
def Records.Equal (rs1 rs2 : Records) : Bool :=
  if rs1.length ≠ rs2.length then false
  else (List.zip rs1 rs2).all fun p => Record.Equal p.1 p.2

/-- Method `Probe.Equal`: true if the probes are equal. The Go argument is a
possibly-nil `*Probe`, modelled by `Option Probe`; a nil argument yields
false. -/
def Probe.Equal (p1 : Probe) (p2? : Option Probe) : Bool :=
  match p2? with
  | none => false
  | some p2 =>
    if p1.Name ≠ p2.Name then false
    else if p1.Badness ≠ p2.Badness then false
    else if p1.Interval ≠ p2.Interval then false
    else if p1.Timeout ≠ p2.Timeout then false
    else if p1.Alerting ≠ p2.Alerting then false
    else if p1.LastAlert ≠ p2.LastAlert then false
    else if p1.Disabled ≠ p2.Disabled then false
    else if ¬ (Records.Equal p1.Records p2.Records) then false
    else if p1.minBadness ≠ p2.minBadness then false
    else if p1.badnessInc ≠ p2.badnessInc then false
    else true

/-- Method `Probes.Less`: whether probe `a` (at index i) should sort before
probe `b` (at index j); the Go method indexes the slice, the comparator
cascade on the two elements is verbatim. A `LastAlert` of 0 is Go's zero
`time.Time` ("never alerted"); `time.Time.After` on the UTC timeline is
`>`. -/
def Probes.Less (a b : Probe) : Bool :=
  if a.Disabled ≠ b.Disabled then b.Disabled
  else if a.Alerting ≠ b.Alerting then a.Alerting
  else if a.Badness ≠ b.Badness then a.Badness > b.Badness
  else if a.LastAlert ≠ b.LastAlert then a.LastAlert > b.LastAlert
  else if a.Records.length ≠ b.Records.length then
    a.Records.length > b.Records.length
  else if a.Name ≠ b.Name then a.Name < b.Name
  else if a.Desc ≠ b.Desc then a.Desc < b.Desc
  else true

/-- Process-wide configuration `handleResult` reads: the `alert_threshold`
flag (default 100) and the `no_alerts` flag. -/
structure Config where
  alertThreshold : Int := 100
  alertsDisabled : Bool := false
deriving DecidableEq, Repr

/-- Record constructed by `logResult` at instant `now`. `TimeMillis` is
`now.Format(time.StampMilli)`; the exact text of the Go time format is
irrelevant to every claim, so a decimal rendering of the instant stands
in. -/
def mkRecord (now : Instant) (r : Result) : Record :=
  { Timestamp := now, TimeMillis := toString now, Result := r }

/-- What `handleResult` leaves behind: the updated probe, and whether it
spawned the alert-delivery goroutine (`go p.sendAlert()`). -/
structure HandleOut where
  probe : Probe
  alertSpawned : Bool
deriving DecidableEq, Repr

/-- Method `handleResult`: handles a return value from a `Probe()` run at
instant `now`. The optional report callback fires first (state-irrelevant),
badness is updated, the record is logged (appended via `addRecord`), and the
alerting flag and the decision to spawn alert delivery follow.
`time.Since(x)` is `now - x`. -/
def Probe.handleResult (cfg : Config) (now : Instant) (p : Probe)
    (r : Result) : HandleOut :=
  let badness :=
    if r.Passed then
      if p.Badness > p.minBadness then p.Badness - p.badnessDec else p.Badness
    else
      p.Badness + p.badnessInc
  let p := { p with Badness := badness,
                    Records := addRecord p.Records (mkRecord now r) }
  if p.Badness < cfg.alertThreshold then
    { probe := { p with Alerting := false }, alertSpawned := false }
  else
    let p := { p with Alerting := true }
    if cfg.alertsDisabled then
      { probe := p, alertSpawned := false }
    else if now - p.LastAlert < MaxAlertFrequency then
      { probe := p, alertSpawned := false }
    else
      { probe := p, alertSpawned := true }

/-- Method `sendAlert`: calls the external `Alert()` implementation and
handles the outcome; `deliveryOk` is whether that call returned a nil
error. -/
def Probe.sendAlert (now : Instant) (deliveryOk : Bool) (p : Probe) : Probe :=
  if deliveryOk then
    { p with LastAlert := now, Badness := p.minBadness }
  else
    p

/-- One-decimal rendering of a nanosecond duration in seconds, standing in
for `fmt.Sprintf` with the `%1.1f` verb applied to `Duration.Seconds()`
(the fractional digit is truncated rather than rounded; every claim touches
whole-second durations only, where the two agree). -/
def fmtSeconds1 (d : Duration) : String :=
  toString (d / second) ++ "." ++ toString (d % second * 10 / second)

/-- Failure result `runProbe` synthesizes when the select's timer fires. -/
def Probe.timeoutFail (p : Probe) : Result :=
  FailedWith (p.Name ++ " timed out (with probe interval " ++
    fmtSeconds1 p.Interval ++ " sec)")

/-- What one `runProbe` cycle leaves behind: the updated probe, which select
branch fired, whether alert delivery was spawned, and the sleep duration the
completion branch requested (Go's `time.Sleep` returns immediately on a
negative duration). -/
structure CycleOut where
  probe : Probe
  timedOut : Bool
  alertSpawned : Bool
  wait : Duration
deriving DecidableEq, Repr

/-- Method `runProbe`: runs the probe once, starting at `start`. The check
runs in its own goroutine and its result `r` becomes available
`checkDuration` after `start`; the select races that completion against
`time.After(p.Interval)`. A tie goes to the timer branch (Go selects
pseudorandomly at exact ties). In the completion branch the result is
handled and `wait := p.Timeout - time.Since(start)` is slept; in the timer
branch the synthesized timeout failure is handled once and the late result,
never read from the 1-buffered channel, updates nothing. Handling time is 0
in this model, so `time.Since(start)` at the sleep is `checkDuration`. -/
def Probe.runProbe (cfg : Config) (start : Instant) (checkDuration : Duration)
    (r : Result) (p : Probe) : CycleOut :=
  if checkDuration < p.Interval then
    let h := p.handleResult cfg (start + checkDuration) r
    { probe := h.probe, timedOut := false, alertSpawned := h.alertSpawned,
      wait := p.Timeout - checkDuration }
  else
    let h := p.handleResult cfg (start + p.Interval) p.timeoutFail
    { probe := h.probe, timedOut := true, alertSpawned := h.alertSpawned,
      wait := 0 }

/-- Chronologically-descending order produced by
`sort.Sort(sort.Reverse(...))` over the `Records` sort order (ascending
`Timestamp.Before`). -/
def newestFirst (a b : Record) : Prop := b.Timestamp ≤ a.Timestamp

instance : DecidableRel newestFirst := fun a b =>
  inferInstanceAs (Decidable (b.Timestamp ≤ a.Timestamp))

instance : IsTotal Record newestFirst :=
  ⟨fun a b => le_total b.Timestamp a.Timestamp⟩

instance : IsTrans Record newestFirst :=
  ⟨fun _ _ _ h1 h2 => le_trans h2 h1⟩

/-- Method `Records.RecentFailures`: only the recent probe failures among
the records, i.e. those not passed and not older than one hour before `now`
(the Go code reads `time.Now()`; the instant is a parameter here), sorted
newest-first. Go's unspecified comparison sort is modelled by insertion
sort; only its permutation and sortedness properties are used. -/
def Records.RecentFailures (now : Instant) (pr : Records) : Records :=
  let failures := pr.filter fun r =>
    ¬ r.Result.Passed ∧ ¬ (r.Timestamp < now - hour)
  List.insertionSort newestFirst failures

/-- Modelled from the spec: the repository's state-update procedure with
silencing. `src/prober.go` lacks the `SilencedUntil` field, the `Silenced()`
predicate and the silenced delivery gate that `prober_test.go` references,
so that variant of `handleResult` is reconstructed from §4.2 of the spec:
steps 2–3 update badness ("decrement badness by `badnessDecrement`, floored
at `minBadness`"; increment by `badnessIncrement` on failure), step 4
appends the record (evicting beyond capacity), steps 5–6 derive `alerting`
and stop when below threshold or alerts are globally disabled, step 7 stops
before any delivery attempt when `now < silencedUntil`, step 8 rate-limits,
and step 9 attempts delivery. -/
def Probe.handleResultSilenced (cfg : Config) (now silencedUntil : Instant)
    (p : Probe) (r : Result) : HandleOut :=
  let badness :=
    if r.Passed then max (p.Badness - p.badnessDec) p.minBadness
    else p.Badness + p.badnessInc
  let p := { p with Badness := badness,
                    Records := addRecord p.Records (mkRecord now r) }
  if p.Badness < cfg.alertThreshold then
    { probe := { p with Alerting := false }, alertSpawned := false }
  else
    let p := { p with Alerting := true }
    if cfg.alertsDisabled then
      { probe := p, alertSpawned := false }
    else if now < silencedUntil then
      { probe := p, alertSpawned := false }
    else if now - p.LastAlert < MaxAlertFrequency then
      { probe := p, alertSpawned := false }
    else
      { probe := p, alertSpawned := true }

/-- Record equality test agrees with structural equality. -/
theorem recordEqual_iff (r1 r2 : Record) :
    Record.Equal r1 r2 = true ↔ r1 = r2 := by
  cases r1; cases r2
  simp [Record.Equal]

/-- Pointwise record equality over a zip of equal-length lists agrees with
list equality. -/
theorem zipAll_recordEqual (as bs : Records) (h : as.length = bs.length) :
    ((List.zip as bs).all fun p => Record.Equal p.1 p.2) = true ↔ as = bs := by
  induction as generalizing bs with
  | nil => cases bs with
    | nil => simp
    | cons b bs => simp at h
  | cons a as ih =>
    cases bs with
    | nil => simp at h
    | cons b bs =>
      simp [recordEqual_iff, ih bs (by simpa using h)]

/-- Record-list equality test agrees with structural equality. -/
theorem recordsEqual_iff (rs1 rs2 : Records) :
    Records.Equal rs1 rs2 = true ↔ rs1 = rs2 := by
  by_cases h : rs1.length = rs2.length
  · simp [Records.Equal, h, zipAll_recordEqual rs1 rs2 h]
  · simp only [Records.Equal]
    rw [if_pos h]
    simp only [Bool.false_eq_true, false_iff]
    exact fun heq => h (by rw [heq])

/-- Branch-free form of `addRecord`: the buffer is always the most recent
window of the appended sequence (dropping 0 when nothing overflows). -/
theorem addRecord_eq (rs : Records) (r : Record) :
    addRecord rs r = (rs ++ [r]).drop (rs.length + 1 - bufferSize) := by
  have hb : (rs ++ [r]).length = rs.length + 1 := by simp
  simp only [addRecord, hb]
  split_ifs with h
  · rfl
  · rw [Nat.sub_eq_zero_of_le (by omega), List.drop_zero]

/-- Full characterisation of `Probe.Equal` against a non-nil probe: exactly
the ten compared fields decide it. -/
theorem probeEqual_iff (p1 p2 : Probe) : Probe.Equal p1 (some p2) = true ↔
    (p1.Name = p2.Name ∧ p1.Badness = p2.Badness ∧ p1.Interval = p2.Interval ∧
     p1.Timeout = p2.Timeout ∧ p1.Alerting = p2.Alerting ∧
     p1.LastAlert = p2.LastAlert ∧ p1.Disabled = p2.Disabled ∧
     p1.Records = p2.Records ∧ p1.minBadness = p2.minBadness ∧
     p1.badnessInc = p2.badnessInc) := by
  by_cases h1 : p1.Name = p2.Name
  case neg => simp [Probe.Equal, h1]
  by_cases h2 : p1.Badness = p2.Badness
  case neg => simp [Probe.Equal, h1, h2]
  by_cases h3 : p1.Interval = p2.Interval
  case neg => simp [Probe.Equal, h1, h2, h3]
  by_cases h4 : p1.Timeout = p2.Timeout
  case neg => simp [Probe.Equal, h1, h2, h3, h4]
  by_cases h5 : p1.Alerting = p2.Alerting
  case neg => simp [Probe.Equal, h1, h2, h3, h4, h5]
  by_cases h6 : p1.LastAlert = p2.LastAlert
  case neg => simp [Probe.Equal, h1, h2, h3, h4, h5, h6]
  by_cases h7 : p1.Disabled = p2.Disabled
  case neg => simp [Probe.Equal, h1, h2, h3, h4, h5, h6, h7]
  by_cases h8 : p1.Records = p2.Records
  case neg =>
    simp [Probe.Equal, h1, h2, h3, h4, h5, h6, h7, recordsEqual_iff, h8]
  by_cases h9 : p1.minBadness = p2.minBadness
  case neg =>
    simp [Probe.Equal, h1, h2, h3, h4, h5, h6, h7, recordsEqual_iff, h8, h9]
  by_cases h10 : p1.badnessInc = p2.badnessInc
  case neg =>
    simp [Probe.Equal, h1, h2, h3, h4, h5, h6, h7, recordsEqual_iff, h8, h9,
      h10]
  simp [Probe.Equal, h1, h2, h3, h4, h5, h6, h7, recordsEqual_iff, h8, h9, h10]

/-- Claim C1, corrected: among probes with equal `Disabled`, `Alerting` and
`Badness` but different `LastAlert`, the comparator orders the probe whose
last alert is more recent (strictly later `LastAlert`) first — the opposite
direction of the claim, which says the longer-ago (or never) alerted probe
sorts first. -/
theorem c1_more_recent_alert_sorts_first (a b : Probe)
    (hd : a.Disabled = b.Disabled) (ha : a.Alerting = b.Alerting)
    (hb : a.Badness = b.Badness) (hl : a.LastAlert ≠ b.LastAlert) :
    Probes.Less a b = true ↔ b.LastAlert < a.LastAlert := by
  simp [Probes.Less, hd, ha, hb, hl]

/-- Claim C1, witness: the corrected statement at two concrete probes, one
alerted at instant 5 and one never alerted. -/
theorem c1_witness :
    Probes.Less { LastAlert := 5 } { LastAlert := 0 } = true ↔
      ({ LastAlert := 0 } : Probe).LastAlert <
        ({ LastAlert := 5 } : Probe).LastAlert :=
  c1_more_recent_alert_sorts_first _ _ rfl rfl rfl (by decide)

/-- Claim C1, counterexample: probe `a` never alerted (zero `LastAlert`),
probe `b` alerted at instant 5, all other triage inputs equal; the claim
says `Less a b` is true (a's last alert is strictly earlier), the code
returns false. -/
theorem c1_counterexample :
    ({ LastAlert := 0 } : Probe).Disabled
        = ({ LastAlert := 5 } : Probe).Disabled ∧
    ({ LastAlert := 0 } : Probe).Alerting
        = ({ LastAlert := 5 } : Probe).Alerting ∧
    ({ LastAlert := 0 } : Probe).Badness
        = ({ LastAlert := 5 } : Probe).Badness ∧
    ({ LastAlert := 0 } : Probe).LastAlert
        < ({ LastAlert := 5 } : Probe).LastAlert ∧
    Probes.Less { LastAlert := 0 } { LastAlert := 5 } = false := by
  decide

/-- Claim C2, corrected: after `handleResult`, for every configured
decrement, increment and floor — a failure increments badness by exactly
`badnessInc`; a success decrements by exactly the full, unclamped
`badnessDec` whenever badness is above the floor and leaves it unchanged
otherwise; the floor itself is untouched; and the floor invariant
`badness ≥ minBadness` is preserved in the one scope the amendment gives
it: when `badnessDec = 1` (the default) and `badnessInc` is non-negative.
The unrestricted floor invariant of the original claim fails (see the
counterexample). -/
theorem c2_badness_floor (cfg : Config) (now : Instant) (p : Probe)
    (r : Result) :
    (r.Passed = false →
      (p.handleResult cfg now r).probe.Badness
        = p.Badness + p.badnessInc) ∧
    (r.Passed = true → p.minBadness < p.Badness →
      (p.handleResult cfg now r).probe.Badness
        = p.Badness - p.badnessDec) ∧
    (r.Passed = true → p.Badness ≤ p.minBadness →
      (p.handleResult cfg now r).probe.Badness = p.Badness) ∧
    (p.handleResult cfg now r).probe.minBadness = p.minBadness ∧
    (p.minBadness ≤ p.Badness → p.badnessDec = 1 → 0 ≤ p.badnessInc →
      p.minBadness ≤ (p.handleResult cfg now r).probe.Badness) := by
  simp only [Probe.handleResult]
  split_ifs <;> simp_all <;> omega

/-- Claim C2, counterexample: a probe with badness 1, floor 0 and
`badnessDec = 2` (a value `SuccessReward` accepts) satisfies the floor
before a success and violates it after: badness becomes -1. -/
theorem c2_counterexample :
    ({ Badness := 1, badnessDec := 2 } : Probe).minBadness ≤
      ({ Badness := 1, badnessDec := 2 } : Probe).Badness ∧
    (({ Badness := 1, badnessDec := 2 } : Probe).handleResult
        {} 0 PassedResult).probe.Badness <
      ({ Badness := 1, badnessDec := 2 } : Probe).minBadness := by
  decide

/-- Claim C3 (spec-modelled): a silenced probe (`now < silencedUntil`) ends
the state-update procedure in exactly the state an unsilenced probe
(`silencedUntil ≤ now`) would — same badness, alerting flag and history —
but with no delivery attempt; in particular a silenced failing probe whose
badness reaches the threshold ends the cycle alerting with its badness not
reset to the floor. -/
theorem c3_silencing_frame (cfg : Config) (now su su' : Instant) (p : Probe)
    (r : Result) (hsil : now < su) (hunsil : su' ≤ now) :
    (Probe.handleResultSilenced cfg now su p r).probe =
      (Probe.handleResultSilenced cfg now su' p r).probe ∧
    (Probe.handleResultSilenced cfg now su p r).alertSpawned = false ∧
    (r.Passed = false → cfg.alertThreshold ≤ p.Badness + p.badnessInc →
      (Probe.handleResultSilenced cfg now su p r).probe.Alerting = true ∧
      (Probe.handleResultSilenced cfg now su p r).probe.Badness
        = p.Badness + p.badnessInc) := by
  simp only [Probe.handleResultSilenced]
  split_ifs <;> simp_all

/-- Claim C3, witness: the frame property at a concrete failing probe with
badness 90, increment 10, silenced until instant 200 at instant 100, against
the same probe unsilenced. -/
theorem c3_witness :
    (Probe.handleResultSilenced {} 100 200
        { Badness := 90, badnessInc := 10 } (FailedWith "x")).probe =
      (Probe.handleResultSilenced {} 100 0
        { Badness := 90, badnessInc := 10 } (FailedWith "x")).probe :=
  (c3_silencing_frame {} 100 200 0 _ _ (by decide) (by decide)).1

/-- Claim C4, confirmed: after `addRecord` the history never exceeds
`bufferSize` (200); the result is always the most recent window of the
appended sequence in original order (the oldest overflow dropped); and
appending to a full buffer of 200 identical-shape records evicts exactly the
single oldest one. -/
theorem c4_history_bounded (rs : Records) (r : Record) :
    (addRecord rs r).length ≤ bufferSize ∧
    addRecord rs r = (rs ++ [r]).drop (rs.length + 1 - bufferSize) ∧
    ∀ r0 : Record, addRecord (List.replicate bufferSize r0) r =
      List.replicate (bufferSize - 1) r0 ++ [r] := by
  refine ⟨?_, addRecord_eq rs r, ?_⟩
  · rw [addRecord_eq]
    have hb : (rs ++ [r]).length = rs.length + 1 := by simp
    rw [List.length_drop, hb]
    omega
  · intro r0
    rw [addRecord_eq, List.length_replicate, Nat.add_sub_cancel_left,
      show List.replicate bufferSize r0
          = r0 :: List.replicate (bufferSize - 1) r0
        from List.replicate_succ r0 (bufferSize - 1)]
    simp

/-- Claim C5, evaluated at the failing input: two fully tied probes (here
literally the same probe value) are each reported as sorting strictly before
the other — `Less` returns true on a tie, a contradictory comparator
result. -/
theorem c5_tied_less_true :
    Probes.Less { Name := "x", Desc := "d" } { Name := "x", Desc := "d" }
      = true := by
  decide

/-- Claim C6, evaluated at the failing input: with `Timeout` 10 s,
`Interval` 60 s and the check's result arriving after 30 s, the probe's
timeout has elapsed before the check completed, yet the cycle takes the
completion branch — the real result is recorded and no timeout failure is
synthesized, because the code races the check against `Interval`, not
`Timeout`. -/
theorem c6_race_uses_interval :
    (Probe.runProbe {} 0 (30 * second) PassedResult
        { Name := "p", Timeout := 10 * second,
          Interval := 60 * second }).timedOut = false ∧
    (Probe.runProbe {} 0 (30 * second) PassedResult
        { Name := "p", Timeout := 10 * second,
          Interval := 60 * second }).probe.Records.map
        (fun rec => rec.Result) = [PassedResult] ∧
    ({ Name := "p", Timeout := 10 * second, Interval := 60 * second }
        : Probe).Timeout < 30 * second := by
  decide

/-- Claim C7, evaluated at the failing input: with `Interval` 60 s,
`Timeout` 10 s and the check completing after 5 s, the cycle's sleep is
computed from the `Timeout` field (10 s − 5 s = 5 s), not from the
configured interval (60 s − 5 s = 55 s) as the claim and the fields' own
documentation state. -/
theorem c7_sleep_uses_timeout :
    (Probe.runProbe {} 0 (5 * second) PassedResult
        { Name := "p", Timeout := 10 * second,
          Interval := 60 * second }).wait =
      ({ Name := "p", Timeout := 10 * second, Interval := 60 * second }
        : Probe).Timeout - 5 * second ∧
    ¬ (Probe.runProbe {} 0 (5 * second) PassedResult
        { Name := "p", Timeout := 10 * second,
          Interval := 60 * second }).wait =
      ({ Name := "p", Timeout := 10 * second, Interval := 60 * second }
        : Probe).Interval - 5 * second := by
  decide

/-- Claim C8, confirmed: a successful delivery sets `LastAlert` to the
current instant and resets badness to the floor, touching nothing else; a
failed delivery leaves the probe completely unchanged (so a later qualifying
cycle retries delivery). -/
theorem c8_delivery_outcome (p : Probe) (now : Instant) :
    p.sendAlert now true = { p with LastAlert := now,
                                    Badness := p.minBadness } ∧
    p.sendAlert now false = p := by
  constructor <;> simp [Probe.sendAlert]

/-- Claim C9, confirmed: `Probe.Equal` holds against a non-nil probe exactly
when the ten compared fields (`Name`, `Badness`, `Interval`, `Timeout`,
`Alerting`, `LastAlert`, `Disabled`, `Records`, `minBadness`, `badnessInc`)
agree; probes differing only in `Desc`, the success reward `badnessDec` or
the reporting callback are equal; and every probe is unequal to nil. -/
theorem c9_equal_semantics :
    (∀ p1 p2 : Probe, Probe.Equal p1 (some p2) = true ↔
      (p1.Name = p2.Name ∧ p1.Badness = p2.Badness ∧
       p1.Interval = p2.Interval ∧ p1.Timeout = p2.Timeout ∧
       p1.Alerting = p2.Alerting ∧ p1.LastAlert = p2.LastAlert ∧
       p1.Disabled = p2.Disabled ∧ p1.Records = p2.Records ∧
       p1.minBadness = p2.minBadness ∧ p1.badnessInc = p2.badnessInc)) ∧
    (∀ (p : Probe) (d : String) (e : Int) (f : Option Nat),
      Probe.Equal p (some { p with Desc := d, badnessDec := e,
                                   reportFn := f }) = true) ∧
    (∀ p : Probe, Probe.Equal p none = false) := by
  refine ⟨probeEqual_iff, ?_, fun p => rfl⟩
  intro p d e f
  rw [probeEqual_iff]
  simp

/-- Claim C10, confirmed: `RecentFailures` is a permutation of exactly the
records that did not pass and are not older than one hour before now, it is
sorted newest-first, and membership is precisely failure within the last
hour. -/
theorem c10_recent_failures (now : Instant) (rs : Records) :
    (Records.RecentFailures now rs).Perm
      (rs.filter fun r => ¬ r.Result.Passed ∧ ¬ (r.Timestamp < now - hour)) ∧
    List.Sorted (fun a b : Record => b.Timestamp ≤ a.Timestamp)
      (Records.RecentFailures now rs) ∧
    ∀ r : Record, r ∈ Records.RecentFailures now rs ↔
      (r ∈ rs ∧ r.Result.Passed = false ∧ now - hour ≤ r.Timestamp) := by
  refine ⟨List.perm_insertionSort newestFirst _,
    List.sorted_insertionSort newestFirst _, ?_⟩
  intro r
  rw [show Records.RecentFailures now rs = List.insertionSort newestFirst
      (rs.filter fun rec =>
        ¬ rec.Result.Passed ∧ ¬ (rec.Timestamp < now - hour)) from rfl,
    (List.perm_insertionSort newestFirst _).mem_iff]
  simp [List.mem_filter, not_lt]

end Prober
